import Mathlib

/-
  Shallow embedding of the EagleAI FastAPI backend (backend_python/main.py):
  student records in a document database, resume binaries on a local disk,
  and the HTTP handlers for the resume lifecycle (upload/replace, metadata,
  download, analyze, delete) plus student CRUD.

  The database is an association list from ObjectId hex string to Student
  document; the disk is an association list from path to byte list.  Python
  exceptions are modelled with an explicit error type: PyError.http models
  fastapi.HTTPException, PyError.other models every other exception (for
  example bson InvalidId).  Since fastapi.HTTPException is a subclass of
  Exception, a bare `except Exception` clause catches it too; the two
  catch shapes occurring in main.py are modelled by catchToHttp (handlers
  that re-raise HTTPException first) and catchAllToHttp (the one handler,
  get_student_resume, that only has `except Exception`).
-/

deriving instance DecidableEq for Except

namespace EagleAI

/-- Bytes of an uploaded file, each entry one byte. -/
abbrev Bytes := List Nat

/-- Embedded resumeFile record (main.py lines 175-181). -/
structure ResumeFile where
  originalName : String
  fileName : String
  filePath : String
  fileSize : Nat
  uploadedAt : String
deriving DecidableEq, Repr

/-- Embedded resumeAnalysis record (main.py lines 241-266); the category
    scores in the source are integer literals, the overall score 8.5. -/
structure ResumeAnalysis where
  overallScore : ℚ
  categoryScores : List (String × Int)
  strengths : List String
  priorityImprovements : List String
  overallAssessment : String
  lastAnalyzed : String
deriving DecidableEq, Repr

/-- A student document as stored in the students collection
    (fields from StudentCreate, main.py lines 73-82, plus the fields added
    at creation, lines 359-363, and the optional resume fields). -/
structure Student where
  name : String
  email : String
  university : String
  major : String
  graduationYear : Option Int
  skills : List String
  interests : List String
  careerGoals : List String
  jobPreferences : List (String × String)
  resumeFile : Option ResumeFile
  resumeText : Option String
  resumeAnalysis : Option ResumeAnalysis
  isActive : Bool
  createdAt : String
  lastLogin : String
deriving DecidableEq, Repr

/-- The students collection: ObjectId hex string to document. -/
abbrev DB := List (String × Student)

/-- The upload directory contents: path to file bytes. -/
abbrev Disk := List (String × Bytes)

/-- Combined mutable state touched by the handlers. -/
structure SysState where
  db : DB
  disk : Disk
deriving DecidableEq, Repr

/-- Python exceptions as they matter to the handlers: fastapi.HTTPException
    with status and detail, or any other exception (bson InvalidId, I/O). -/
inductive PyError where
  | http (status : Nat) (detail : String)
  | other (msg : String)
deriving DecidableEq, Repr

/-- Response of a handler after exception mapping: a value, or an HTTP
    error status with detail. -/
inductive Resp (α : Type) where
  | ok (value : α)
  | error (status : Nat) (detail : String)
deriving DecidableEq, Repr

/-- Models `except HTTPException: raise` followed by
    `except Exception: raise HTTPException(500, d)`. -/
def catchToHttp (d : String) : Except PyError α → Resp α
  | .ok a => .ok a
  | .error (.http s det) => .error s det
  | .error (.other _) => .error 500 d

/-- Models a bare `except Exception: raise HTTPException(500, d)` with no
    preceding HTTPException re-raise: since HTTPException subclasses
    Exception, it is caught and replaced by the 500 as well. -/
def catchAllToHttp (d : String) : Except PyError α → Resp α
  | .ok a => .ok a
  | .error _ => .error 500 d

/-- True of a character that is a hexadecimal digit. -/
def isHexChar (c : Char) : Bool :=
  c.isDigit || (('a' ≤ c) && (c ≤ 'f')) || (('A' ≤ c) && (c ≤ 'F'))

/-- bson ObjectId accepts exactly a 24-character hexadecimal string;
    anything else raises InvalidId. -/
def validObjectId (s : String) : Bool :=
  s.length == 24 && s.toList.all isHexChar

/-- First document in the collection stored under the given id
    (find_one semantics on the association list). -/
def dbLookup : DB → String → Option Student
  | [], _ => none
  | (k, v) :: rest, i => if i = k then some v else dbLookup rest i

/-- find_one on the students collection by _id, after ObjectId(student_id):
    a malformed id raises (InvalidId), a well-formed one returns the first
    document with that id, if any. -/
def findOneById (db : DB) (sid : String) : Except PyError (Option Student) :=
  if validObjectId sid then .ok (dbLookup db sid) else .error (.other "InvalidId")

/-- File present on disk at the given path, if any. -/
def diskRead : Disk → String → Option Bytes
  | [], _ => none
  | (q, b) :: rest, p => if p = q then some b else diskRead rest p

/-- Path.exists on the upload disk. -/
def diskExists (d : Disk) (p : String) : Bool :=
  (diskRead d p).isSome

/-- Path.unlink: remove the entry at the path. -/
def diskUnlink (d : Disk) (p : String) : Disk :=
  d.filter (fun e => decide (e.1 ≠ p))

/-- open(path, "wb") followed by write(content): the path now holds exactly
    the written bytes, replacing any previous content. -/
def diskWrite (d : Disk) (p : String) (b : Bytes) : Disk :=
  (p, b) :: diskUnlink d p

/-- Front of the first list equals the second list, character by character. -/
def matchesFront : List Char → List Char → Bool
  | _, [] => true
  | [], _ :: _ => false
  | a :: as, b :: bs => (a = b) && matchesFront as bs

/-- Python str.endswith, modelled over character lists (the byte-position
    based String.endsWith of core does not reduce in the kernel). -/
def pyEndsWith (s suffix : String) : Bool :=
  matchesFront s.toList.reverse suffix.toList.reverse

/-- MAX_FILE_SIZE, main.py line 56. -/
def MAX_FILE_SIZE : Nat := 5 * 1024 * 1024

/-- Response model ResumeInfo (main.py lines 84-90). -/
structure ResumeInfo where
  id : String
  fileName : String
  fileUrl : String
  uploadedAt : String
  fileSize : Nat
  analysis : Option ResumeAnalysis
deriving DecidableEq, Repr

/-- Try-body of GET resume metadata (main.py lines 113-129): 404 for a
    missing student, 404 for a student without resumeFile, else the
    metadata plus any stored analysis. -/
def getStudentResumeBody (db : DB) (sid : String) : Except PyError ResumeInfo :=
  match findOneById db sid with
  | .error e => .error e
  | .ok none => .error (.http 404 "Student not found")
  | .ok (some student) =>
    match student.resumeFile with
    | none => .error (.http 404 "No resume found")
    | some rf =>
      .ok { id := sid
            fileName := rf.originalName
            fileUrl := "/api/students/" ++ sid ++ "/resume/download"
            uploadedAt := rf.uploadedAt
            fileSize := rf.fileSize
            analysis := student.resumeAnalysis }

/-- GET /api/students/{id}/resume (main.py lines 110-133).  This handler
    has no `except HTTPException: raise` clause, only `except Exception`,
    so even its own 404 exceptions are converted to a 500. -/
def get_student_resume (db : DB) (sid : String) : Resp ResumeInfo :=
  catchAllToHttp "Failed to fetch resume" (getStudentResumeBody db sid)

/-- Server-generated filename, main.py line 158:
    resume-{student_id}-{timestamp}-{resume.filename}. -/
def storedFileName (sid ts filename : String) : String :=
  "resume-" ++ sid ++ "-" ++ ts ++ "-" ++ filename

/-- UPLOAD_DIR / filename as a string, main.py lines 54 and 159. -/
def storedFilePath (sid ts filename : String) : String :=
  "uploads/resumes/" ++ storedFileName sid ts filename

/-- resume_data document, main.py lines 175-181. -/
def mkResumeData (sid ts iso filename : String) (content : Bytes) : ResumeFile :=
  { originalName := filename
    fileName := storedFileName sid ts filename
    filePath := storedFilePath sid ts filename
    fileSize := content.length
    uploadedAt := iso }

/-- update_one on the students collection: apply the update function to
    the document stored under the id (in the real collection _id is unique,
    so at most one document matches). -/
def dbUpdate (f : Student → Student) : DB → String → DB
  | [], _ => []
  | (k, v) :: rest, i => (if i = k then (k, f v) else (k, v)) :: dbUpdate f rest i

/-- update_one with a dollar-set of resumeFile only (main.py lines 183-186). -/
def dbSetResumeFile (db : DB) (sid : String) (rf : ResumeFile) : DB :=
  dbUpdate (fun st => { st with resumeFile := some rf }) db sid

/-- update_one with a dollar-set of resumeAnalysis only (main.py lines 269-272). -/
def dbSetResumeAnalysis (db : DB) (sid : String) (a : ResumeAnalysis) : DB :=
  dbUpdate (fun st => { st with resumeAnalysis := some a }) db sid

/-- update_one with a dollar-unset of resumeFile, resumeText and
    resumeAnalysis (main.py lines 305-308). -/
def dbClearResumeFields (db : DB) (sid : String) : DB :=
  dbUpdate (fun st => { st with resumeFile := none, resumeText := none, resumeAnalysis := none })
    db sid

/-- Old-file removal step of upload (main.py lines 161-168): if the student
    document holds a resumeFile path and the file exists, unlink it; an
    unlink exception is caught and only logged (modelled by unlinkFails,
    which leaves the disk unchanged). -/
def deleteOldFileStep (s : SysState) (student : Student) (unlinkFails : Bool) : SysState :=
  match student.resumeFile with
  | none => s
  | some rf =>
    if diskExists s.disk rf.filePath then
      if unlinkFails then s else { s with disk := diskUnlink s.disk rf.filePath }
    else s

/-- Try-body of upload (main.py lines 141-197): filename check, size check,
    student lookup, old-file unlink, new-file write, DB update, response.
    ts models datetime.now().strftime at line 157, iso the isoformat
    timestamp at line 180. -/
def uploadBody (s : SysState) (sid filename : String) (content : Bytes)
    (ts iso : String) (unlinkFails : Bool) :
    Except PyError (SysState × String × ResumeInfo) :=
  if !(pyEndsWith filename ".pdf") then .error (.http 400 "Only PDF files are allowed")
  else if content.length > MAX_FILE_SIZE then
    .error (.http 413 "File too large. Maximum size is 5MB")
  else
    match findOneById s.db sid with
    | .error e => .error e
    | .ok none => .error (.http 404 "Student not found")
    | .ok (some student) =>
      let s1 := deleteOldFileStep s student unlinkFails
      let s2 : SysState := { s1 with disk := diskWrite s1.disk (storedFilePath sid ts filename) content }
      let rd := mkResumeData sid ts iso filename content
      let s3 : SysState := { s2 with db := dbSetResumeFile s2.db sid rd }
      .ok (s3, "Resume uploaded successfully",
           { id := sid
             fileName := rd.originalName
             fileUrl := "/api/students/" ++ sid ++ "/resume/download"
             uploadedAt := rd.uploadedAt
             fileSize := rd.fileSize
             analysis := none })

/-- POST /api/students/{id}/resume (main.py lines 135-203): the body with
    HTTPException re-raised and any other exception mapped to 500.  An
    error leaves the state unchanged (all mutation happens on the success
    path of the body). -/
def upload_student_resume (s : SysState) (sid filename : String) (content : Bytes)
    (ts iso : String) (unlinkFails : Bool) : SysState × Resp (String × ResumeInfo) :=
  match uploadBody s sid filename content ts iso unlinkFails with
  | .ok (s', msg, info) => (s', .ok (msg, info))
  | .error (.http c d) => (s, .error c d)
  | .error (.other _) => (s, .error 500 "Failed to upload resume")

/-- Try-body of download (main.py lines 208-221): 404 if student or record
    missing, 404 if the path is not on disk, else the file bytes
    (FileResponse streams exactly the bytes at the path). -/
def downloadBody (s : SysState) (sid : String) : Except PyError Bytes :=
  match findOneById s.db sid with
  | .error e => .error e
  | .ok none => .error (.http 404 "Resume not found")
  | .ok (some student) =>
    match student.resumeFile with
    | none => .error (.http 404 "Resume not found")
    | some rf =>
      match diskRead s.disk rf.filePath with
      | none => .error (.http 404 "Resume file not found on disk")
      | some bytes => .ok bytes

/-- GET /api/students/{id}/resume/download (main.py lines 205-227). -/
def download_student_resume (s : SysState) (sid : String) : Resp Bytes :=
  catchToHttp "Failed to download resume" (downloadBody s sid)

/-- The hard-coded analysis payload (main.py lines 241-266); only
    lastAnalyzed depends on the clock. -/
def mockAnalysis (iso : String) : ResumeAnalysis :=
  { overallScore := 8.5
    categoryScores := [("bulletPoints", 8), ("header", 9), ("education", 8),
      ("experience", 9), ("secondarySections", 7), ("formatting", 8),
      ("language", 8), ("contentQuality", 9), ("targeting", 8),
      ("universalStandards", 8)]
    strengths := ["Strong technical skills section",
      "Quantified achievements in experience",
      "Clear and concise formatting"]
    priorityImprovements := ["Add more specific metrics to bullet points",
      "Include relevant keywords for target roles"]
    overallAssessment := "Strong resume with good technical content and clear structure."
    lastAnalyzed := iso }

/-- Try-body of analyze (main.py lines 232-277): 404 for a missing student,
    400 when no resumeFile is present, else persist the mock analysis and
    return it; the stored file on disk is never read. -/
def analyzeBody (s : SysState) (sid iso : String) :
    Except PyError (SysState × String × ResumeAnalysis) :=
  match findOneById s.db sid with
  | .error e => .error e
  | .ok none => .error (.http 404 "Student not found")
  | .ok (some student) =>
    match student.resumeFile with
    | none => .error (.http 400 "No resume file found. Please upload a resume first.")
    | some _ =>
      let a := mockAnalysis iso
      .ok ({ s with db := dbSetResumeAnalysis s.db sid a },
           "Resume analyzed successfully", a)

/-- POST /api/students/{id}/resume/analyze (main.py lines 229-283). -/
def analyze_student_resume (s : SysState) (sid iso : String) :
    SysState × Resp (String × ResumeAnalysis) :=
  match analyzeBody s sid iso with
  | .ok (s', msg, a) => (s', .ok (msg, a))
  | .error (.http c d) => (s, .error c d)
  | .error (.other _) => (s, .error 500 "Failed to analyze resume")

/-- Try-body of delete (main.py lines 288-310): 404 for a missing student
    or missing resumeFile; best-effort unlink of the stored path (an unlink
    exception is caught and logged, modelled by unlinkFails); the DB clear
    of resumeFile, resumeText and resumeAnalysis always follows. -/
def deleteBody (s : SysState) (sid : String) (unlinkFails : Bool) :
    Except PyError (SysState × String) :=
  match findOneById s.db sid with
  | .error e => .error e
  | .ok none => .error (.http 404 "Student not found")
  | .ok (some student) =>
    match student.resumeFile with
    | none => .error (.http 404 "No resume found")
    | some rf =>
      let s1 :=
        if diskExists s.disk rf.filePath then
          if unlinkFails then s else { s with disk := diskUnlink s.disk rf.filePath }
        else s
      let s2 : SysState := { s1 with db := dbClearResumeFields s1.db sid }
      .ok (s2, "Resume deleted successfully")

/-- DELETE /api/students/{id}/resume (main.py lines 285-316). -/
def delete_student_resume (s : SysState) (sid : String) (unlinkFails : Bool) :
    SysState × Resp String :=
  match deleteBody s sid unlinkFails with
  | .ok (s', msg) => (s', .ok msg)
  | .error (.http c d) => (s, .error c d)
  | .error (.other _) => (s, .error 500 "Failed to delete resume")

/-- Try-body of GET one student (main.py lines 335-341). -/
def getStudentBody (db : DB) (sid : String) : Except PyError Student :=
  match findOneById db sid with
  | .error e => .error e
  | .ok none => .error (.http 404 "Student not found")
  | .ok (some student) => .ok student

/-- GET /api/students/{id} (main.py lines 332-346): HTTPException is
    re-raised, any other exception (including InvalidId from a malformed
    id) becomes a 500. -/
def get_student (db : DB) (sid : String) : Resp Student :=
  catchToHttp "Failed to fetch student" (getStudentBody db sid)

/-- Request model StudentCreate (main.py lines 73-82). -/
structure StudentCreate where
  name : String
  email : String
  university : String
  major : String
  graduationYear : Option Int
  skills : List String
  interests : List String
  careerGoals : List String
  jobPreferences : List (String × String)
deriving DecidableEq, Repr

/-- POST /api/students (main.py lines 348-382): 409 when a student with
    the email exists; otherwise insert the document with the lifecycle
    fields added.  newId models the ObjectId generated by insert_one, iso
    the isoformat timestamps of lines 361-362. -/
def create_student (db : DB) (sc : StudentCreate) (newId iso : String) :
    DB × Resp (String × String) :=
  if db.any (fun p => decide (p.2.email = sc.email)) then
    (db, .error 409 "Student with this email already exists")
  else
    let st : Student :=
      { name := sc.name
        email := sc.email
        university := sc.university
        major := sc.major
        graduationYear := sc.graduationYear
        skills := sc.skills
        interests := sc.interests
        careerGoals := sc.careerGoals
        jobPreferences := sc.jobPreferences
        resumeFile := none
        resumeText := none
        resumeAnalysis := none
        isActive := true
        createdAt := iso
        lastLogin := iso }
    (db ++ [(newId, st)], .ok (newId, sc.name))

/-- States visited by the mutation steps of a successful upload: index 0 is
    the initial state, 1 the state after the old-file unlink (main.py lines
    161-168), 2 after the new-file write (lines 171-172), 3 after the DB
    update (lines 183-186).  An execution that fails partway stops at one
    of these states; when a validation or the lookup fails, no mutation
    happens at all. -/
def uploadStates (s : SysState) (sid filename : String) (content : Bytes)
    (ts iso : String) (unlinkFails : Bool) : List SysState :=
  if pyEndsWith filename ".pdf" = true ∧ content.length ≤ MAX_FILE_SIZE ∧
      validObjectId sid = true then
    match dbLookup s.db sid with
    | none => [s]
    | some student =>
      let s1 := deleteOldFileStep s student unlinkFails
      let s2 : SysState :=
        { s1 with disk := diskWrite s1.disk (storedFilePath sid ts filename) content }
      let s3 : SysState :=
        { s2 with db := dbSetResumeFile s2.db sid (mkResumeData sid ts iso filename content) }
      [s, s1, s2, s3]
  else [s]

/-- Consistency: every resumeFile path referenced by some student document
    is present on disk (no missing-but-referenced file). -/
def referencedFilesPresent (s : SysState) : Bool :=
  s.db.all (fun p => match p.2.resumeFile with
    | some rf => diskExists s.disk rf.filePath
    | none => true)

/-- Emails are pairwise distinct across the student documents. -/
def emailsUnique (db : DB) : Prop :=
  db.Pairwise (fun p q => p.2.email ≠ q.2.email)

/-
  Concrete documents and states used by witnesses and counterexamples.
-/

/-- A well-formed 24-character hexadecimal ObjectId. -/
def exId : String := "507f1f77bcf86cd799439011"

/-- A second distinct well-formed ObjectId. -/
def exId2 : String := "507f1f77bcf86cd799439012"

/-- A plain student document without resume data. -/
def baseStudent : Student :=
  { name := "A", email := "a@x.com", university := "", major := "",
    graduationYear := none, skills := [], interests := [], careerGoals := [],
    jobPreferences := [], resumeFile := none, resumeText := none,
    resumeAnalysis := none, isActive := true, createdAt := "t0", lastLogin := "t0" }

/-- A stored resume record pointing at a path on disk. -/
def exResume : ResumeFile :=
  { originalName := "old.pdf", fileName := "old.pdf",
    filePath := "uploads/resumes/old.pdf", fileSize := 1, uploadedAt := "t0" }

/-- A student document holding the stored resume record. -/
def exStudentWithResume : Student :=
  { baseStudent with resumeFile := some exResume }

/-- A state where the single student has a resume whose binary is on disk. -/
def exState : SysState :=
  { db := [(exId, exStudentWithResume)],
    disk := [("uploads/resumes/old.pdf", [37])] }

/-
  Helper lemmas about the association-list database and disk.
-/

/-- Looking up the updated id after dbUpdate rewrites the stored document
    by the update function. -/
theorem dbLookup_dbUpdate (db : DB) (sid : String) (f : Student → Student) :
    dbLookup (dbUpdate f db sid) sid = (dbLookup db sid).map f := by
  induction db with
  | nil => rfl
  | cons hd tl ih =>
    obtain ⟨k, v⟩ := hd
    by_cases h : sid = k
    · rw [dbUpdate, if_pos h, dbLookup, if_pos h, dbLookup, if_pos h]
      rfl
    · rw [dbUpdate, if_neg h, dbLookup, if_neg h, dbLookup, if_neg h]
      exact ih

/-- Looking up a different id after dbUpdate is unchanged. -/
theorem dbLookup_dbUpdate_ne (db : DB) (sid sid' : String) (f : Student → Student)
    (h : sid' ≠ sid) :
    dbLookup (dbUpdate f db sid) sid' = dbLookup db sid' := by
  induction db with
  | nil => rfl
  | cons hd tl ih =>
    obtain ⟨k, v⟩ := hd
    by_cases hk : sid = k
    · have hk' : ¬ sid' = k := by
        intro hc
        exact h (hc.trans hk.symm)
      rw [dbUpdate, if_pos hk, dbLookup, if_neg hk', dbLookup, if_neg hk']
      exact ih
    · by_cases hk' : sid' = k
      · rw [dbUpdate, if_neg hk, dbLookup, if_pos hk', dbLookup, if_pos hk']
      · rw [dbUpdate, if_neg hk, dbLookup, if_neg hk', dbLookup, if_neg hk']
        exact ih

/-- Reading an unlinked path yields nothing. -/
theorem diskRead_unlink_self (d : Disk) (p : String) :
    diskRead (diskUnlink d p) p = none := by
  induction d with
  | nil => rfl
  | cons hd tl ih =>
    obtain ⟨q, b⟩ := hd
    by_cases h : q = p
    · subst h
      simpa [diskUnlink] using ih
    · have : diskUnlink ((q, b) :: tl) p = (q, b) :: diskUnlink tl p := by
        simp [diskUnlink, h]
      rw [this, diskRead]
      have hne : ¬ p = q := fun hc => h hc.symm
      simp [hne, ih]

/-- Reading a path just written yields the written bytes. -/
theorem diskRead_write_self (d : Disk) (p : String) (b : Bytes) :
    diskRead (diskWrite d p b) p = some b := by
  simp [diskWrite, diskRead]

/-- Under passing validations and a found student, the upload trace is the
    four-state list initial, after-unlink, after-write, after-DB-update. -/
theorem uploadStates_eq (s : SysState) (sid filename ts iso : String)
    (content : Bytes) (unlinkFails : Bool) (student : Student)
    (hpdf : pyEndsWith filename ".pdf" = true)
    (hsize : content.length ≤ MAX_FILE_SIZE)
    (hoid : validObjectId sid = true)
    (hst : dbLookup s.db sid = some student) :
    uploadStates s sid filename content ts iso unlinkFails =
      [s, deleteOldFileStep s student unlinkFails,
       { deleteOldFileStep s student unlinkFails with
           disk := diskWrite (deleteOldFileStep s student unlinkFails).disk
                     (storedFilePath sid ts filename) content },
       { deleteOldFileStep s student unlinkFails with
           disk := diskWrite (deleteOldFileStep s student unlinkFails).disk
                     (storedFilePath sid ts filename) content
           db := dbSetResumeFile (deleteOldFileStep s student unlinkFails).db sid
                   (mkResumeData sid ts iso filename content) }] := by
  rw [uploadStates, if_pos ⟨hpdf, hsize, hoid⟩, hst]

/-- Under passing validations and a found student, the upload handler
    succeeds and its final state is the last state of the trace. -/
theorem upload_student_resume_eq (s : SysState) (sid filename ts iso : String)
    (content : Bytes) (unlinkFails : Bool) (student : Student)
    (hpdf : pyEndsWith filename ".pdf" = true)
    (hsize : content.length ≤ MAX_FILE_SIZE)
    (hoid : validObjectId sid = true)
    (hst : dbLookup s.db sid = some student) :
    upload_student_resume s sid filename content ts iso unlinkFails =
      ({ deleteOldFileStep s student unlinkFails with
           disk := diskWrite (deleteOldFileStep s student unlinkFails).disk
                     (storedFilePath sid ts filename) content
           db := dbSetResumeFile (deleteOldFileStep s student unlinkFails).db sid
                   (mkResumeData sid ts iso filename content) },
       .ok ("Resume uploaded successfully",
            { id := sid
              fileName := filename
              fileUrl := "/api/students/" ++ sid ++ "/resume/download"
              uploadedAt := iso
              fileSize := content.length
              analysis := none })) := by
  have hgt : ¬ (content.length > MAX_FILE_SIZE) := not_lt.mpr hsize
  rw [upload_student_resume, uploadBody, if_neg (by simp [hpdf]), if_neg hgt,
    findOneById, if_pos hoid, hst]
  rfl

/-- Claim C1: counterexample.  Start from a consistent state in which the
    single student has a stored resume whose binary is on disk, and run a
    valid replacing upload: the states after the old-file unlink (index 1)
    and after the new-file write (index 2) both have the database
    referencing a file that is no longer on disk, so an upload that fails
    partway does leave a missing-but-referenced file, refuting the claimed
    delete-last ordering. -/
theorem upload_orphan_counterexample :
    referencedFilesPresent exState = true ∧
    (uploadStates exState exId "new.pdf" [1] "ts1" "t1" false).map referencedFilesPresent
      = [true, false, false, true] := by
  decide

/-- Claim C1 (amended): in upload/replace the old binary is removed before
    the new binary is written and before the database pointer is updated
    (main.py unlinks at lines 161-168, writes at 171-172, updates the DB at
    183-186); consequently an execution that fails partway, right after the
    unlink, leaves the database referencing a removed file, while a
    completed upload leaves the database referencing the new file, which is
    then on disk. -/
theorem upload_old_file_deleted_first
    (s : SysState) (sid filename ts iso : String) (content : Bytes)
    (student : Student) (rf : ResumeFile)
    (hpdf : pyEndsWith filename ".pdf" = true)
    (hsize : content.length ≤ MAX_FILE_SIZE)
    (hoid : validObjectId sid = true)
    (hst : dbLookup s.db sid = some student)
    (hrf : student.resumeFile = some rf)
    (hondisk : diskExists s.disk rf.filePath = true) :
    (∃ t, (uploadStates s sid filename content ts iso false).get? 1 = some t ∧
      dbLookup t.db sid = some student ∧
      diskExists t.disk rf.filePath = false) ∧
    dbLookup (upload_student_resume s sid filename content ts iso false).1.db sid =
      some { student with resumeFile := some (mkResumeData sid ts iso filename content) } ∧
    diskExists (upload_student_resume s sid filename content ts iso false).1.disk
      (storedFilePath sid ts filename) = true := by
  have hdel : deleteOldFileStep s student false =
      { s with disk := diskUnlink s.disk rf.filePath } := by
    rw [deleteOldFileStep, hrf]
    simp [hondisk]
  refine ⟨⟨{ s with disk := diskUnlink s.disk rf.filePath }, ?_, hst, ?_⟩, ?_, ?_⟩
  · rw [uploadStates_eq s sid filename ts iso content false student hpdf hsize hoid hst, hdel]
    rfl
  · simp [diskExists, diskRead_unlink_self]
  · rw [upload_student_resume_eq s sid filename ts iso content false student hpdf hsize hoid hst]
    have : (deleteOldFileStep s student false).db = s.db := by rw [hdel]
    simp only [dbSetResumeFile, this, dbLookup_dbUpdate, hst, Option.map]
  · rw [upload_student_resume_eq s sid filename ts iso content false student hpdf hsize hoid hst]
    simp [diskExists, diskRead_write_self]

/-- Claim C1 amended, witness: the concrete replacing upload on exState. -/
theorem upload_old_file_deleted_first_witness :
    (∃ t, (uploadStates exState exId "new.pdf" [1] "ts1" "t1" false).get? 1 = some t ∧
      dbLookup t.db exId = some exStudentWithResume ∧
      diskExists t.disk exResume.filePath = false) ∧
    dbLookup (upload_student_resume exState exId "new.pdf" [1] "ts1" "t1" false).1.db exId =
      some { exStudentWithResume with
               resumeFile := some (mkResumeData exId "ts1" "t1" "new.pdf" [1]) } ∧
    diskExists (upload_student_resume exState exId "new.pdf" [1] "ts1" "t1" false).1.disk
      (storedFilePath exId "ts1" "new.pdf") = true :=
  upload_old_file_deleted_first exState exId "new.pdf" "ts1" "t1" [1]
    exStudentWithResume exResume (by decide) (by decide) (by decide) (by decide)
    (by decide) (by decide)

/-- Claim C2: the metadata handler (GET resume) raises 404 inside its
    try-body both for a missing student and for a student without a resume,
    but its only except clause catches Exception, which HTTPException
    subclasses, so the client receives a generic 500 in both cases instead
    of the 404 the claim states. -/
theorem getinfo_notfound_becomes_500 :
    getStudentResumeBody [] exId = .error (.http 404 "Student not found") ∧
    get_student_resume [] exId = .error 500 "Failed to fetch resume" ∧
    getStudentResumeBody [(exId, baseStudent)] exId = .error (.http 404 "No resume found") ∧
    get_student_resume [(exId, baseStudent)] exId = .error 500 "Failed to fetch resume" := by
  decide

/-- Claim C3: for an existing student and any byte sequence that upload
    accepts (PDF-named, within the size bound), download on the resulting
    state returns exactly the uploaded bytes. -/
theorem upload_download_roundtrip
    (s : SysState) (sid filename ts iso : String) (content : Bytes) (unlinkFails : Bool)
    (student : Student)
    (hpdf : pyEndsWith filename ".pdf" = true)
    (hsize : content.length ≤ MAX_FILE_SIZE)
    (hoid : validObjectId sid = true)
    (hst : dbLookup s.db sid = some student) :
    download_student_resume
      (upload_student_resume s sid filename content ts iso unlinkFails).1 sid
      = .ok content := by
  rw [upload_student_resume_eq s sid filename ts iso content unlinkFails student
    hpdf hsize hoid hst]
  rw [download_student_resume, downloadBody, findOneById, if_pos hoid]
  have hlook : dbLookup
      (dbSetResumeFile (deleteOldFileStep s student unlinkFails).db sid
        (mkResumeData sid ts iso filename content)) sid =
      some { student with resumeFile := some (mkResumeData sid ts iso filename content) } := by
    have hdb : (deleteOldFileStep s student unlinkFails).db = s.db := by
      rw [deleteOldFileStep]
      cases student.resumeFile with
      | none => rfl
      | some rf =>
        by_cases h : diskExists s.disk rf.filePath
        · by_cases hu : unlinkFails <;> simp [h, hu]
        · simp [h]
    rw [dbSetResumeFile, hdb, dbLookup_dbUpdate, hst]
    rfl
  rw [hlook]
  show catchToHttp _ (match diskRead _ (mkResumeData sid ts iso filename content).filePath with
    | none => Except.error (PyError.http 404 "Resume file not found on disk")
    | some bytes => Except.ok bytes) = _
  rw [show (mkResumeData sid ts iso filename content).filePath = storedFilePath sid ts filename
      from rfl,
    diskRead_write_self]
  rfl

/-- Claim C3, witness: uploading three bytes for the concrete student then
    downloading returns the same three bytes. -/
theorem upload_download_roundtrip_witness :
    download_student_resume
      (upload_student_resume exState exId "new.pdf" [9, 8, 7] "ts1" "t1" false).1 exId
      = .ok [9, 8, 7] :=
  upload_download_roundtrip exState exId "new.pdf" "ts1" "t1" [9, 8, 7] false
    exStudentWithResume (by decide) (by decide) (by decide) (by decide)

/-- Claim C4: an upload strictly larger than 5 MiB fails the size check
    with a 413 (provided the filename passed the preceding type check,
    which otherwise rejects with a 400 first), and an upload of at most
    5 MiB — in particular exactly 5 MiB — is never rejected with a 413:
    the boundary is inclusive. -/
theorem upload_size_boundary
    (s : SysState) (sid filename ts iso : String) (content : Bytes) (unlinkFails : Bool) :
    (content.length > MAX_FILE_SIZE →
      (upload_student_resume s sid filename content ts iso unlinkFails).2 =
        (if pyEndsWith filename ".pdf" then Resp.error 413 "File too large. Maximum size is 5MB"
         else Resp.error 400 "Only PDF files are allowed")) ∧
    (content.length ≤ MAX_FILE_SIZE →
      ∀ c d, (upload_student_resume s sid filename content ts iso unlinkFails).2 =
        Resp.error c d → c ≠ 413) := by
  constructor
  · intro hgt
    by_cases hpdf : pyEndsWith filename ".pdf" = true
    · rw [upload_student_resume, uploadBody, if_neg (by simp [hpdf]), if_pos hgt, if_pos hpdf]
    · have hpdf' : pyEndsWith filename ".pdf" = false := by
        revert hpdf
        cases pyEndsWith filename ".pdf" <;> simp
      rw [upload_student_resume, uploadBody, if_pos (by simp [hpdf']), if_neg (by simp [hpdf'])]
  · intro hle c d
    have hgt : ¬ (content.length > MAX_FILE_SIZE) := not_lt.mpr hle
    by_cases hpdf : pyEndsWith filename ".pdf" = true
    · by_cases hoid : validObjectId sid = true
      · cases hdb : dbLookup s.db sid with
        | none =>
          rw [upload_student_resume, uploadBody, if_neg (by simp [hpdf]), if_neg hgt,
            findOneById, if_pos hoid, hdb]
          intro h
          cases h
          decide
        | some student =>
          rw [upload_student_resume_eq s sid filename ts iso content unlinkFails student
            hpdf hle hoid hdb]
          intro h
          cases h
      · have hoid' : validObjectId sid = false := by
          revert hoid
          cases validObjectId sid <;> simp
        rw [upload_student_resume, uploadBody, if_neg (by simp [hpdf]), if_neg hgt,
          findOneById, if_neg (by simp [hoid'])]
        intro h
        cases h
        decide
    · have hpdf' : pyEndsWith filename ".pdf" = false := by
        revert hpdf
        cases pyEndsWith filename ".pdf" <;> simp
      rw [upload_student_resume, uploadBody, if_pos (by simp [hpdf'])]
      intro h
      cases h
      decide

/-- Claim C4, witness: a one-byte PDF named upload to an empty database is
    not rejected with a 413 (here it yields the 404 of the student lookup),
    and an oversized upload is rejected with exactly the 413. -/
theorem upload_size_boundary_witness :
    ((upload_student_resume { db := [], disk := [] } exId "a.pdf"
        (List.replicate (MAX_FILE_SIZE + 1) 0) "ts1" "t1" false).2 =
      Resp.error 413 "File too large. Maximum size is 5MB") ∧
    (∀ c d, (upload_student_resume { db := [], disk := [] } exId "a.pdf"
        (List.replicate MAX_FILE_SIZE 0) "ts1" "t1" false).2 =
      Resp.error c d → c ≠ 413) := by
  constructor
  · have h := (upload_size_boundary { db := [], disk := [] } exId "a.pdf" "ts1" "t1"
      (List.replicate (MAX_FILE_SIZE + 1) 0) false).1
        (by simp [List.length_replicate])
    rw [h]
    simp only [if_pos (show pyEndsWith "a.pdf" ".pdf" = true by decide)]
  · exact (upload_size_boundary { db := [], disk := [] } exId "a.pdf" "ts1" "t1"
      (List.replicate MAX_FILE_SIZE 0) false).2 (by simp [List.length_replicate])

/-- Under a valid id, a found student and a stored resume record, delete
    succeeds: the resume fields are cleared in the database, and the disk
    entry is removed exactly when it existed and the unlink did not fail. -/
theorem delete_student_resume_eq (s : SysState) (sid : String) (student : Student)
    (rf : ResumeFile) (unlinkFails : Bool)
    (hoid : validObjectId sid = true)
    (hst : dbLookup s.db sid = some student)
    (hrf : student.resumeFile = some rf) :
    delete_student_resume s sid unlinkFails =
      ({ db := dbClearResumeFields s.db sid,
         disk := if diskExists s.disk rf.filePath = true ∧ unlinkFails = false
                 then diskUnlink s.disk rf.filePath else s.disk },
       .ok "Resume deleted successfully") := by
  simp only [delete_student_resume, deleteBody, findOneById, if_pos hoid, hst, hrf]
  by_cases hex : diskExists s.disk rf.filePath = true
  · cases unlinkFails <;> simp [hex]
  · simp only [hex]
    simp at hex
    simp [hex]

/-- Claim C5: delete with no stored resume fails 404; with a stored resume
    it succeeds and clears resumeFile, resumeText and resumeAnalysis in the
    student document even when the on-disk unlink fails (the unlink
    exception is swallowed), BUT the subsequent metadata fetch answers 500,
    not the 404 the claim states, because get_student_resume catches its
    own HTTPException (see claim C2): the code diverges from the claim on
    that final point. -/
theorem delete_clears_fields_but_getinfo_500
    (s : SysState) (sid : String) (student : Student)
    (hoid : validObjectId sid = true)
    (hst : dbLookup s.db sid = some student) :
    (student.resumeFile = none → ∀ unlinkFails,
      delete_student_resume s sid unlinkFails = (s, .error 404 "No resume found")) ∧
    (∀ rf unlinkFails, student.resumeFile = some rf →
      (delete_student_resume s sid unlinkFails).2 = .ok "Resume deleted successfully" ∧
      dbLookup (delete_student_resume s sid unlinkFails).1.db sid =
        some { student with resumeFile := none, resumeText := none, resumeAnalysis := none } ∧
      get_student_resume (delete_student_resume s sid unlinkFails).1.db sid =
        .error 500 "Failed to fetch resume") := by
  constructor
  · intro hnone unlinkFails
    simp only [delete_student_resume, deleteBody, findOneById, if_pos hoid, hst, hnone]
  · intro rf unlinkFails hrf
    rw [delete_student_resume_eq s sid student rf unlinkFails hoid hst hrf]
    have hlook : dbLookup (dbClearResumeFields s.db sid) sid =
        some { student with resumeFile := none, resumeText := none, resumeAnalysis := none } := by
      rw [dbClearResumeFields, dbLookup_dbUpdate, hst]
      rfl
    refine ⟨rfl, hlook, ?_⟩
    rw [get_student_resume, getStudentResumeBody, findOneById, if_pos hoid, hlook]
    rfl

/-- Claim C5, witness: deleting the concrete resume with a failing unlink
    still clears the fields, and the metadata fetch afterwards answers 500. -/
theorem delete_clears_fields_but_getinfo_500_witness :
    (delete_student_resume exState exId true).2 = .ok "Resume deleted successfully" ∧
    dbLookup (delete_student_resume exState exId true).1.db exId =
      some { exStudentWithResume with
               resumeFile := none, resumeText := none, resumeAnalysis := none } ∧
    get_student_resume (delete_student_resume exState exId true).1.db exId =
      .error 500 "Failed to fetch resume" :=
  (delete_clears_fields_but_getinfo_500 exState exId exStudentWithResume
    (by decide) (by decide)).2 exResume true (by decide)

/-- Claim C6: for an existing student, analyze answers the 400 no-resume
    ValidationError exactly when the document has no resumeFile; when a
    resumeFile record is present it succeeds with the mock analysis, and
    its response never depends on the disk — the stored binary is never
    read, so it may be absent. -/
theorem analyze_iff_resume_present
    (db : DB) (disk1 disk2 : Disk) (sid iso : String) (student : Student)
    (hoid : validObjectId sid = true)
    (hst : dbLookup db sid = some student) :
    ((analyze_student_resume ⟨db, disk1⟩ sid iso).2 =
        .error 400 "No resume file found. Please upload a resume first."
      ↔ student.resumeFile = none) ∧
    (∀ rf, student.resumeFile = some rf →
      (analyze_student_resume ⟨db, disk1⟩ sid iso).2 =
        .ok ("Resume analyzed successfully", mockAnalysis iso)) ∧
    (analyze_student_resume ⟨db, disk1⟩ sid iso).2 =
      (analyze_student_resume ⟨db, disk2⟩ sid iso).2 := by
  have key : ∀ dk : Disk, (analyze_student_resume ⟨db, dk⟩ sid iso).2 =
      match student.resumeFile with
      | none => .error 400 "No resume file found. Please upload a resume first."
      | some _ => .ok ("Resume analyzed successfully", mockAnalysis iso) := by
    intro dk
    simp only [analyze_student_resume, analyzeBody, findOneById, if_pos hoid]
    simp only [show (⟨db, dk⟩ : SysState).db = db from rfl, hst]
    cases student.resumeFile <;> rfl
  refine ⟨?_, ?_, ?_⟩
  · rw [key]
    cases h : student.resumeFile <;> simp
  · intro rf hrf
    rw [key, hrf]
  · rw [key, key]

/-- Claim C6, witness: analyzing the concrete student whose resume record
    points at a path present on one disk and absent from the other gives
    the same successful answer on both. -/
theorem analyze_iff_resume_present_witness :
    ((analyze_student_resume ⟨exState.db, exState.disk⟩ exId "t1").2 =
        .error 400 "No resume file found. Please upload a resume first."
      ↔ exStudentWithResume.resumeFile = none) ∧
    (∀ rf, exStudentWithResume.resumeFile = some rf →
      (analyze_student_resume ⟨exState.db, exState.disk⟩ exId "t1").2 =
        .ok ("Resume analyzed successfully", mockAnalysis "t1")) ∧
    (analyze_student_resume ⟨exState.db, exState.disk⟩ exId "t1").2 =
      (analyze_student_resume ⟨exState.db, []⟩ exId "t1").2 :=
  analyze_iff_resume_present exState.db exState.disk [] exId "t1"
    exStudentWithResume (by decide) (by decide)

/-- A student-creation request reusing the email of baseStudent. -/
def exCreate : StudentCreate :=
  { name := "B", email := "a@x.com", university := "U", major := "M",
    graduationYear := some 2026, skills := ["s"], interests := [],
    careerGoals := [], jobPreferences := [] }

/-- Claim C7: creating a student whose email some stored student already
    has fails with the 409 ConflictError and leaves the database unchanged,
    whatever the other profile fields are; consequently every create
    preserves uniqueness of emails across student documents. -/
theorem create_email_uniqueness
    (db : DB) (sc : StudentCreate) (newId iso : String) :
    ((∃ p ∈ db, p.2.email = sc.email) →
      create_student db sc newId iso =
        (db, .error 409 "Student with this email already exists")) ∧
    (emailsUnique db → emailsUnique (create_student db sc newId iso).1) := by
  constructor
  · rintro ⟨p, hp, he⟩
    have hany : db.any (fun p => decide (p.2.email = sc.email)) = true := by
      rw [List.any_eq_true]
      exact ⟨p, hp, by simpa using he⟩
    rw [create_student, if_pos hany]
  · intro hu
    by_cases hany : db.any (fun p => decide (p.2.email = sc.email)) = true
    · rw [create_student, if_pos hany]
      exact hu
    · have hno : ∀ p ∈ db, ¬ p.2.email = sc.email := by
        intro p hp hc
        apply hany
        rw [List.any_eq_true]
        exact ⟨p, hp, by simpa using hc⟩
      rw [create_student, if_neg hany]
      show emailsUnique (db ++ [(newId, _)])
      rw [emailsUnique, List.pairwise_append]
      refine ⟨hu, List.pairwise_singleton _ _, ?_⟩
      intro a ha b hb
      have hb' : b = (newId,
          { name := sc.name, email := sc.email, university := sc.university,
            major := sc.major, graduationYear := sc.graduationYear,
            skills := sc.skills, interests := sc.interests,
            careerGoals := sc.careerGoals, jobPreferences := sc.jobPreferences,
            resumeFile := none, resumeText := none, resumeAnalysis := none,
            isActive := true, createdAt := iso, lastLogin := iso }) := by
        simpa using hb
      rw [hb']
      exact hno a ha

/-- Claim C7, witness: creating a second student with the already stored
    email fails 409 and leaves the database as it was; creating into an
    email-unique database preserves uniqueness. -/
theorem create_email_uniqueness_witness :
    create_student [(exId, baseStudent)] exCreate exId2 "t1" =
      ([(exId, baseStudent)], .error 409 "Student with this email already exists") ∧
    emailsUnique (create_student [(exId, baseStudent)] exCreate exId2 "t1").1 :=
  ⟨(create_email_uniqueness [(exId, baseStudent)] exCreate exId2 "t1").1
      ⟨(exId, baseStudent), by simp, by decide⟩,
    (create_email_uniqueness [(exId, baseStudent)] exCreate exId2 "t1").2
      (List.pairwise_singleton _ _)⟩

/-- Claim C8: counterexample — fetching a student under the malformed id
    abc (not a 24-character hexadecimal ObjectId) answers the generic 500,
    not the 404 NotFoundError the claim states: ObjectId raises InvalidId,
    which is not an HTTPException, so the handler maps it to 500. -/
theorem get_student_malformed_counterexample :
    validObjectId "abc" = false ∧
    get_student [] "abc" = .error 500 "Failed to fetch student" ∧
    get_student [] "abc" ≠ .error 404 "Student not found" := by
  decide

/-- Claim C8 (amended): fetching a student with a malformed id fails with
    the generic InternalError 500 (the InvalidId exception is not an
    HTTPException and falls to the catch-all), while an absent but
    well-formed id fails with the 404 NotFoundError. -/
theorem get_student_id_errors (db : DB) (sid : String) :
    (validObjectId sid = false →
      get_student db sid = .error 500 "Failed to fetch student") ∧
    (validObjectId sid = true → dbLookup db sid = none →
      get_student db sid = .error 404 "Student not found") := by
  constructor
  · intro h
    rw [get_student, getStudentBody, findOneById, if_neg (by simp [h])]
    rfl
  · intro h hnone
    rw [get_student, getStudentBody, findOneById, if_pos h, hnone]
    rfl

/-- Claim C8 amended, witness: the malformed id abc yields the 500 and the
    absent well-formed id yields the 404. -/
theorem get_student_id_errors_witness :
    get_student [] "abc" = .error 500 "Failed to fetch student" ∧
    get_student [] exId = .error 404 "Student not found" :=
  ⟨(get_student_id_errors [] "abc").1 (by decide),
    (get_student_id_errors [] exId).2 (by decide) (by decide)⟩

/-- Claim C9: a successful upload rewrites only the resumeFile field of the
    uploading student's document — every other field, resumeAnalysis
    included, is carried over unchanged — and every other student document
    is untouched. -/
theorem upload_frame
    (s : SysState) (sid filename ts iso : String) (content : Bytes) (unlinkFails : Bool)
    (student : Student)
    (hpdf : pyEndsWith filename ".pdf" = true)
    (hsize : content.length ≤ MAX_FILE_SIZE)
    (hoid : validObjectId sid = true)
    (hst : dbLookup s.db sid = some student) :
    dbLookup (upload_student_resume s sid filename content ts iso unlinkFails).1.db sid =
      some { student with resumeFile := some (mkResumeData sid ts iso filename content) } ∧
    (∀ sid', sid' ≠ sid →
      dbLookup (upload_student_resume s sid filename content ts iso unlinkFails).1.db sid' =
        dbLookup s.db sid') ∧
    (∀ st', dbLookup
        (upload_student_resume s sid filename content ts iso unlinkFails).1.db sid =
          some st' →
      st'.resumeAnalysis = student.resumeAnalysis) := by
  have hdb : (deleteOldFileStep s student unlinkFails).db = s.db := by
    rw [deleteOldFileStep]
    cases student.resumeFile with
    | none => rfl
    | some rf =>
      by_cases h : diskExists s.disk rf.filePath
      · by_cases hu : unlinkFails <;> simp [h, hu]
      · simp [h]
  rw [upload_student_resume_eq s sid filename ts iso content unlinkFails student
    hpdf hsize hoid hst]
  have hlook : dbLookup
      (dbSetResumeFile (deleteOldFileStep s student unlinkFails).db sid
        (mkResumeData sid ts iso filename content)) sid =
      some { student with resumeFile := some (mkResumeData sid ts iso filename content) } := by
    rw [dbSetResumeFile, hdb, dbLookup_dbUpdate, hst]
    rfl
  refine ⟨hlook, ?_, ?_⟩
  · intro sid' hne
    show dbLookup (dbSetResumeFile _ sid _) sid' = _
    rw [dbSetResumeFile, hdb, dbLookup_dbUpdate_ne _ _ _ _ hne]
  · intro st' hst'
    rw [hlook] at hst'
    cases hst'
    rfl

/-- Claim C9, witness: the concrete replacing upload keeps the stored
    analysis field and the unrelated student untouched. -/
theorem upload_frame_witness :
    dbLookup (upload_student_resume exState exId "new.pdf" [1] "ts1" "t1" false).1.db exId =
      some { exStudentWithResume with
               resumeFile := some (mkResumeData exId "ts1" "t1" "new.pdf" [1]) } ∧
    (∀ sid', sid' ≠ exId →
      dbLookup (upload_student_resume exState exId "new.pdf" [1] "ts1" "t1" false).1.db sid' =
        dbLookup exState.db sid') ∧
    (∀ st', dbLookup
        (upload_student_resume exState exId "new.pdf" [1] "ts1" "t1" false).1.db exId =
          some st' →
      st'.resumeAnalysis = exStudentWithResume.resumeAnalysis) :=
  upload_frame exState exId "new.pdf" "ts1" "t1" [1] false exStudentWithResume
    (by decide) (by decide) (by decide) (by decide)

/-- Claim C10: for any two students with a resume record present, analyze
    returns and persists the same fabricated payload up to the lastAnalyzed
    timestamp — independent of the resume bytes, the profile and any prior
    analysis — and the overall score is the constant 8.5, inside [0, 10]. -/
theorem analyze_static_payload
    (s1 s2 : SysState) (sid1 sid2 iso1 iso2 : String) (st1 st2 : Student)
    (rf1 rf2 : ResumeFile)
    (hoid1 : validObjectId sid1 = true) (hst1 : dbLookup s1.db sid1 = some st1)
    (hrf1 : st1.resumeFile = some rf1)
    (hoid2 : validObjectId sid2 = true) (hst2 : dbLookup s2.db sid2 = some st2)
    (hrf2 : st2.resumeFile = some rf2) :
    (analyze_student_resume s1 sid1 iso1).2 =
      .ok ("Resume analyzed successfully", mockAnalysis iso1) ∧
    (analyze_student_resume s2 sid2 iso2).2 =
      .ok ("Resume analyzed successfully", mockAnalysis iso2) ∧
    dbLookup (analyze_student_resume s1 sid1 iso1).1.db sid1 =
      some { st1 with resumeAnalysis := some (mockAnalysis iso1) } ∧
    { mockAnalysis iso1 with lastAnalyzed := iso2 } = mockAnalysis iso2 ∧
    (mockAnalysis iso1).overallScore = 8.5 ∧
    0 ≤ (mockAnalysis iso1).overallScore ∧ (mockAnalysis iso1).overallScore ≤ 10 := by
  have key : ∀ (s : SysState) (sid iso : String) (st : Student) (rf : ResumeFile),
      validObjectId sid = true → dbLookup s.db sid = some st → st.resumeFile = some rf →
      analyze_student_resume s sid iso =
        ({ s with db := dbSetResumeAnalysis s.db sid (mockAnalysis iso) },
         .ok ("Resume analyzed successfully", mockAnalysis iso)) := by
    intro s sid iso st rf hoid hst hrf
    simp only [analyze_student_resume, analyzeBody, findOneById, if_pos hoid, hst, hrf]
  refine ⟨?_, ?_, ?_, ?_, rfl, ?_, ?_⟩
  · rw [key s1 sid1 iso1 st1 rf1 hoid1 hst1 hrf1]
  · rw [key s2 sid2 iso2 st2 rf2 hoid2 hst2 hrf2]
  · rw [key s1 sid1 iso1 st1 rf1 hoid1 hst1 hrf1]
    show dbLookup (dbSetResumeAnalysis s1.db sid1 (mockAnalysis iso1)) sid1 = _
    rw [dbSetResumeAnalysis, dbLookup_dbUpdate, hst1]
    rfl
  · rfl
  · show (0 : ℚ) ≤ 8.5
    norm_num
  · show (8.5 : ℚ) ≤ 10
    norm_num

/-- Claim C10, witness: the concrete analyses of two different students at
    two timestamps agree apart from lastAnalyzed, with overall score 8.5. -/
theorem analyze_static_payload_witness :
    (analyze_student_resume exState exId "t1").2 =
      .ok ("Resume analyzed successfully", mockAnalysis "t1") ∧
    (analyze_student_resume
        ⟨[(exId2, { baseStudent with email := "b@x.com", resumeFile := some exResume })], []⟩
        exId2 "t2").2 =
      .ok ("Resume analyzed successfully", mockAnalysis "t2") ∧
    dbLookup (analyze_student_resume exState exId "t1").1.db exId =
      some { exStudentWithResume with resumeAnalysis := some (mockAnalysis "t1") } ∧
    { mockAnalysis "t1" with lastAnalyzed := "t2" } = mockAnalysis "t2" ∧
    (mockAnalysis "t1").overallScore = 8.5 ∧
    0 ≤ (mockAnalysis "t1").overallScore ∧ (mockAnalysis "t1").overallScore ≤ 10 :=
  analyze_static_payload exState
    ⟨[(exId2, { baseStudent with email := "b@x.com", resumeFile := some exResume })], []⟩
    exId exId2 "t1" "t2" exStudentWithResume
    { baseStudent with email := "b@x.com", resumeFile := some exResume }
    exResume exResume
    (by decide) (by decide) (by decide) (by decide) (by decide) (by decide)

end EagleAI
